import Mathlib

/-!
# Meridian 59 client module `intro` (module/intro/intro.c)

A shallow embedding of the two entry points of the module, `DllMain` and
`GetModuleInfo`, together with the file-scope variable `hInst`.

The C program mutates three pieces of memory: the global `hInst`, the record
behind the pointer `info`, and (potentially) the record behind the pointer
`client_info`.  Each entry point is embedded as a function that takes the
contents of the memory it can reach before the call and returns the contents
after the call, together with the C return value.
-/

namespace Intro

/-! ## Platform types and constants -/

/-- Win32 `HINSTANCE`: a module handle, modelled by its numeric value. -/
abbrev HINSTANCE := Nat

/-- Win32 `DWORD`: an unsigned 32-bit value.  No arithmetic is performed on it
in this module, it is only compared with the case labels. -/
abbrev DWORD := Nat

/-- Win32 `LPVOID`: an untyped pointer, modelled by its address (0 is null). -/
abbrev LPVOID := Nat

/-- Win32 `BOOL`: an `int`. -/
abbrev BOOL := Int

/-- Win32 `TRUE` (windef.h). -/
def TRUE : BOOL := 1

/-- Win32 `FALSE` (windef.h). -/
def FALSE : BOOL := 0

/-- Win32 reason code `DLL_PROCESS_ATTACH` (winnt.h). -/
def DLL_PROCESS_ATTACH : DWORD := 1

/-- Win32 reason code `DLL_PROCESS_DETACH` (winnt.h). -/
def DLL_PROCESS_DETACH : DWORD := 0

/-- Win32 reason code `DLL_THREAD_ATTACH` (winnt.h); not named in intro.c. -/
def DLL_THREAD_ATTACH : DWORD := 2

/-- Win32 reason code `DLL_THREAD_DETACH` (winnt.h); not named in intro.c. -/
def DLL_THREAD_DETACH : DWORD := 3

/-! ## Data model -/

/-- Modelled from the spec: the declaration of `ModuleInfo` lives in `client.h`,
which is not part of the sources at hand.  The spec describes it as a record of
three fields: an event-interest bitmask, a priority level and a module
identifier; intro.c names them `event_mask`, `priority` and `module_id`. -/
structure ModuleInfo where
  event_mask : Int
  priority : Int
  module_id : Int
deriving DecidableEq, Repr

/-- The constants `PRIORITY_IGNORE` (client.h) and `MODULE_ID` (intro.h) that
intro.c stores into the record.  Their definitions are not part of the sources
at hand, so they are carried as parameters and every result below holds for
all values of them. -/
structure HostConstants where
  PRIORITY_IGNORE : Int
  MODULE_ID : Int
deriving DecidableEq, Repr

/-- The file-scope variables of intro.c: `HINSTANCE hInst;`. -/
structure Globals where
  hInst : HINSTANCE
deriving DecidableEq, Repr

/-- State of the file-scope variables when the module is loaded: C
zero-initialises `hInst`. -/
def Globals.initial : Globals := ⟨0⟩

/-- Outcome of one call of `DllMain`: the value returned and the file-scope
variables after the call. -/
structure DllMainResult where
  ret : BOOL
  globals : Globals
deriving DecidableEq, Repr

/-- Outcome of one call of `GetModuleInfo`: the file-scope variables, the record
behind `info` and the record behind `client_info` (`none` for a null pointer)
after the call.  The function returns `void`. -/
structure GetModuleInfoResult (ClientInfo : Type) where
  globals : Globals
  info : ModuleInfo
  client_info : Option ClientInfo

/-! ## The entry points -/

/-- Embedding of
```
BOOL WINAPI DllMain(HINSTANCE hModule, DWORD reason, LPVOID reserved)
{
   switch (reason)
   {
   case DLL_PROCESS_ATTACH:
      hInst = hModule;
      break;

   case DLL_PROCESS_DETACH:
      break;
   }
   return TRUE;
   (void) reserved;
}
```
-/
def DllMain (g : Globals) (hModule : HINSTANCE) (reason : DWORD) (_reserved : LPVOID) :
    DllMainResult :=
  let g1 : Globals :=
    if reason = DLL_PROCESS_ATTACH then
      { g with hInst := hModule }
    else if reason = DLL_PROCESS_DETACH then
      g
    else
      g
  { ret := TRUE, globals := g1 }

/-- Embedding of
```
void WINAPI GetModuleInfo(ModuleInfo *info, ClientInfo *client_info)
{
   info->event_mask = 0;
   info->priority   = PRIORITY_IGNORE;
   info->module_id  = MODULE_ID;

   (void) client_info;
}
```
The three stores are performed one after the other on the record behind
`info`. -/
def GetModuleInfo {ClientInfo : Type} (K : HostConstants) (g : Globals)
    (info : ModuleInfo) (client_info : Option ClientInfo) : GetModuleInfoResult ClientInfo :=
  let info1 : ModuleInfo := { info with event_mask := 0 }
  let info2 : ModuleInfo := { info1 with priority := K.PRIORITY_IGNORE }
  let info3 : ModuleInfo := { info2 with module_id := K.MODULE_ID }
  { globals := g, info := info3, client_info := client_info }

/-! ## Sequences of calls made by the host -/

/-- The arguments of one call of `DllMain`. -/
structure DllMainArgs where
  hModule : HINSTANCE
  reason : DWORD
  reserved : LPVOID
deriving DecidableEq, Repr

/-- One call made by the host into the module. -/
inductive HostCall (ClientInfo : Type) where
  | dllMain (a : DllMainArgs)
  | getModuleInfo (info : ModuleInfo) (client_info : Option ClientInfo)

/-- File-scope variables after one call made by the host. -/
def HostCall.exec {ClientInfo : Type} (K : HostConstants) (g : Globals) :
    HostCall ClientInfo → Globals
  | .dllMain a => (DllMain g a.hModule a.reason a.reserved).globals
  | .getModuleInfo info client_info => (GetModuleInfo K g info client_info).globals

/-- File-scope variables after a sequence of calls made by the host, performed
from left to right. -/
def runCalls {ClientInfo : Type} (K : HostConstants) (g : Globals)
    (calls : List (HostCall ClientInfo)) : Globals :=
  calls.foldl (HostCall.exec K) g

/-- File-scope variables after a sequence of `DllMain` calls, performed from
left to right. -/
def runDllMain (g : Globals) (calls : List DllMainArgs) : Globals :=
  calls.foldl (fun s a => (DllMain s a.hModule a.reason a.reserved).globals) g

/-- Values returned by a sequence of `DllMain` calls, performed from left to
right, in call order. -/
def retsDllMain : Globals → List DllMainArgs → List BOOL
  | _, [] => []
  | g, a :: rest =>
    let r := DllMain g a.hModule a.reason a.reserved
    r.ret :: retsDllMain r.globals rest

/-- Whether a call is a process-attach notification carrying a handle other than
`h`. -/
def HostCall.isAttachOther {ClientInfo : Type} (h : HINSTANCE) : HostCall ClientInfo → Bool
  | .dllMain a => decide (a.reason = DLL_PROCESS_ATTACH) && decide (a.hModule ≠ h)
  | .getModuleInfo _ _ => false

/-! ## Auxiliary facts -/

lemma DllMain_ret (g : Globals) (hModule : HINSTANCE) (reason : DWORD) (reserved : LPVOID) :
    (DllMain g hModule reason reserved).ret = TRUE := rfl

lemma DllMain_globals_attach (g : Globals) (hModule : HINSTANCE) (reserved : LPVOID) :
    (DllMain g hModule DLL_PROCESS_ATTACH reserved).globals = ⟨hModule⟩ := by
  simp [DllMain]

lemma DllMain_globals_other (g : Globals) (hModule : HINSTANCE) (reason : DWORD)
    (reserved : LPVOID) (hr : reason ≠ DLL_PROCESS_ATTACH) :
    (DllMain g hModule reason reserved).globals = g := by
  simp [DllMain, hr]

lemma GetModuleInfo_globals {ClientInfo : Type} (K : HostConstants) (g : Globals)
    (info : ModuleInfo) (client_info : Option ClientInfo) :
    (GetModuleInfo K g info client_info).globals = g := rfl

lemma runDllMain_snoc (g : Globals) (calls : List DllMainArgs) (a : DllMainArgs) :
    runDllMain g (calls ++ [a])
      = (DllMain (runDllMain g calls) a.hModule a.reason a.reserved).globals := by
  simp [runDllMain, List.foldl_append]

lemma retsDllMain_all_TRUE (calls : List DllMainArgs) :
    ∀ g : Globals, retsDllMain g calls = List.replicate calls.length TRUE := by
  induction calls with
  | nil => intro g; rfl
  | cons a rest ih =>
    intro g
    simp only [retsDllMain, List.length_cons, List.replicate_succ, ih, DllMain_ret]

lemma exec_hInst_of_not_isAttachOther {ClientInfo : Type} (K : HostConstants) (g : Globals)
    (c : HostCall ClientInfo) (hc : c.isAttachOther g.hInst = false) :
    (c.exec K g).hInst = g.hInst := by
  cases c with
  | dllMain a =>
    by_cases hr : a.reason = DLL_PROCESS_ATTACH
    · have hh : a.hModule = g.hInst := by
        simpa [HostCall.isAttachOther, hr] using hc
      simp [HostCall.exec, hr, DllMain_globals_attach, hh]
    · simp [HostCall.exec, DllMain_globals_other _ _ _ _ hr]
  | getModuleInfo info client_info => rfl

lemma runCalls_hInst_stable {ClientInfo : Type} (K : HostConstants)
    (calls : List (HostCall ClientInfo)) :
    ∀ g : Globals, (∀ c ∈ calls, c.isAttachOther g.hInst = false) →
      (runCalls K g calls).hInst = g.hInst := by
  induction calls with
  | nil => intro g _; rfl
  | cons c rest ih =>
    intro g hall
    have hc := exec_hInst_of_not_isAttachOther K g c (hall c (List.mem_cons_self _ _))
    have hrest : ∀ d ∈ rest, d.isAttachOther (c.exec K g).hInst = false := by
      intro d hd
      rw [hc]
      exact hall d (List.mem_cons_of_mem _ hd)
    have := ih (c.exec K g) hrest
    simpa [runCalls, hc] using this

/-! ## The metadata query -/

/-- C1: for every prior content of the output record, every value of the
file-scope variables and every client context (a null pointer included),
`GetModuleInfo` leaves the output record equal to exactly
`{event_mask = 0, priority = PRIORITY_IGNORE, module_id = MODULE_ID}`; the
right-hand side does not mention the prior record, so no field keeps its
previous value. -/
theorem GetModuleInfo_populates_record {ClientInfo : Type} (K : HostConstants) (g : Globals)
    (info : ModuleInfo) (client_info : Option ClientInfo) :
    (GetModuleInfo K g info client_info).info
      = { event_mask := 0, priority := K.PRIORITY_IGNORE, module_id := K.MODULE_ID } ∧
    (GetModuleInfo K g info (none : Option ClientInfo)).info
      = { event_mask := 0, priority := K.PRIORITY_IGNORE, module_id := K.MODULE_ID } :=
  ⟨rfl, rfl⟩

/-- C7: `GetModuleInfo` is idempotent and independent of the client context.
Calling it with `c1` on the record `info1` and then with `c2` on another record
`info2` yields identical records; calling it with `c2` on the record the first
call populated yields that record again, unchanged. -/
theorem GetModuleInfo_idempotent {ClientInfo : Type} (K : HostConstants) (g : Globals)
    (info1 info2 : ModuleInfo) (c1 c2 : Option ClientInfo) :
    (GetModuleInfo K (GetModuleInfo K g info1 c1).globals info2 c2).info
      = (GetModuleInfo K g info1 c1).info ∧
    (GetModuleInfo K (GetModuleInfo K g info1 c1).globals
        (GetModuleInfo K g info1 c1).info c2).info
      = (GetModuleInfo K g info1 c1).info :=
  ⟨rfl, rfl⟩

/-- C8: `GetModuleInfo` has no effect outside the output record: the file-scope
variable `hInst` has the same value after the call as before, and the record
behind `client_info` is the one that was passed in. -/
theorem GetModuleInfo_frame {ClientInfo : Type} (K : HostConstants) (g : Globals)
    (info : ModuleInfo) (client_info : Option ClientInfo) :
    (GetModuleInfo K g info client_info).globals.hInst = g.hInst ∧
    (GetModuleInfo K g info client_info).client_info = client_info :=
  ⟨rfl, rfl⟩

/-! ## The lifecycle notification -/

/-- C2: for every instance handle, reason code and reserved value, and from
every prior value of `hInst`, `DllMain` returns `TRUE`, and so never `FALSE`. -/
theorem DllMain_returns_TRUE (g : Globals) (hModule : HINSTANCE) (reason : DWORD)
    (reserved : LPVOID) :
    (DllMain g hModule reason reserved).ret = TRUE ∧
    (DllMain g hModule reason reserved).ret ≠ FALSE := by
  refine ⟨rfl, ?_⟩
  rw [DllMain_ret]
  decide

/-- C3: for every instance handle `h` and every prior value of `hInst`,
`DllMain h DLL_PROCESS_ATTACH reserved` leaves `hInst` equal to `h`.  Scenario 1
of the spec: from the freshly loaded module, handle 0x1000 and a null reserved
pointer give the result `TRUE` and `hInst = 0x1000`. -/
theorem DllMain_attach_sets_hInst (g : Globals) (h : HINSTANCE) (reserved : LPVOID) :
    (DllMain g h DLL_PROCESS_ATTACH reserved).globals.hInst = h ∧
    DllMain Globals.initial 0x1000 DLL_PROCESS_ATTACH 0 = ⟨TRUE, ⟨0x1000⟩⟩ := by
  refine ⟨?_, ?_⟩
  · rw [DllMain_globals_attach]
  · simp [DllMain]

/-- C4: for every prior value of `hInst` and every instance handle and reserved
value, `DllMain` with reason `DLL_PROCESS_DETACH` leaves `hInst` as it was, also
when the handle passed differs from the stored one. -/
theorem DllMain_detach_keeps_hInst (g : Globals) (hModule : HINSTANCE) (reserved : LPVOID) :
    (DllMain g hModule DLL_PROCESS_DETACH reserved).globals.hInst = g.hInst := by
  rw [DllMain_globals_other g hModule DLL_PROCESS_DETACH reserved (by decide)]

/-- C5: for every reason code other than `DLL_PROCESS_ATTACH` and
`DLL_PROCESS_DETACH`, and every instance handle and reserved value, `DllMain`
leaves `hInst` unchanged and returns `TRUE`. -/
theorem DllMain_other_reason_noop (g : Globals) (hModule : HINSTANCE) (R : DWORD)
    (reserved : LPVOID) (hA : R ≠ DLL_PROCESS_ATTACH) (hD : R ≠ DLL_PROCESS_DETACH) :
    (DllMain g hModule R reserved).globals.hInst = g.hInst ∧
    (DllMain g hModule R reserved).ret = TRUE := by
  refine ⟨?_, rfl⟩
  simp [DllMain, hA, hD]

/-- Witness for C5: a thread-attach notification carrying handle 0x2000 while
`hInst` is 0x1000. -/
theorem DllMain_other_reason_noop_witness :
    DLL_THREAD_ATTACH ≠ DLL_PROCESS_ATTACH ∧ DLL_THREAD_ATTACH ≠ DLL_PROCESS_DETACH ∧
    (DllMain ⟨0x1000⟩ 0x2000 DLL_THREAD_ATTACH 0).globals.hInst = 0x1000 ∧
    (DllMain ⟨0x1000⟩ 0x2000 DLL_THREAD_ATTACH 0).ret = TRUE :=
  ⟨by decide, by decide,
    DllMain_other_reason_noop ⟨0x1000⟩ 0x2000 DLL_THREAD_ATTACH 0 (by decide) (by decide)⟩

/-! ## Sequences of calls -/

/-- C6, as stated, fails: after a process-attach has set `hInst` to 0x1000, a
further process-attach carrying 0x2000 changes its value to 0x2000. -/
theorem hInst_set_once_counterexample :
    (DllMain Globals.initial 0x1000 DLL_PROCESS_ATTACH 0).globals.hInst = 0x1000 ∧
    (runCalls (⟨0, 0⟩ : HostConstants)
        (DllMain Globals.initial 0x1000 DLL_PROCESS_ATTACH 0).globals
        [(HostCall.dllMain ⟨0x2000, DLL_PROCESS_ATTACH, 0⟩ : HostCall Unit)]).hInst = 0x2000 ∧
    (runCalls (⟨0, 0⟩ : HostConstants)
        (DllMain Globals.initial 0x1000 DLL_PROCESS_ATTACH 0).globals
        [(HostCall.dllMain ⟨0x2000, DLL_PROCESS_ATTACH, 0⟩ : HostCall Unit)]).hInst
      ≠ (DllMain Globals.initial 0x1000 DLL_PROCESS_ATTACH 0).globals.hInst := by
  simp [runCalls, HostCall.exec, DllMain, Globals.initial]

/-- C6, amended: once a process-attach notification has set `hInst` to `h`, then
in every sequence of later `DllMain` and `GetModuleInfo` calls that contains no
process-attach carrying a handle other than `h`, `hInst` equals `h` after every
call of the sequence (that is, after every initial segment of it). -/
theorem hInst_stable_after_attach {ClientInfo : Type} (K : HostConstants) (g : Globals)
    (h : HINSTANCE) (reserved : LPVOID) (calls : List (HostCall ClientInfo))
    (hcalls : ∀ c ∈ calls, c.isAttachOther h = false) (n : Nat) :
    (runCalls K (DllMain g h DLL_PROCESS_ATTACH reserved).globals (calls.take n)).hInst = h := by
  have hset : (DllMain g h DLL_PROCESS_ATTACH reserved).globals.hInst = h := by
    rw [DllMain_globals_attach]
  have hstable := runCalls_hInst_stable K (calls.take n)
    (DllMain g h DLL_PROCESS_ATTACH reserved).globals
    (fun c hc => by rw [hset]; exact hcalls c (List.mem_of_mem_take hc))
  rw [hstable, hset]

/-- Witness for C6, amended: after attaching with handle 0x1000, a detach, a
metadata query, a thread-attach carrying another handle and a repeated
process-attach carrying 0x1000 all leave `hInst` at 0x1000. -/
theorem hInst_stable_after_attach_witness :
    (∀ c ∈ ([HostCall.dllMain ⟨0x1000, DLL_PROCESS_DETACH, 0⟩,
              HostCall.getModuleInfo ⟨1, 2, 3⟩ none,
              HostCall.dllMain ⟨0x2000, DLL_THREAD_ATTACH, 0⟩,
              HostCall.dllMain ⟨0x1000, DLL_PROCESS_ATTACH, 0⟩] : List (HostCall Unit)),
        c.isAttachOther 0x1000 = false) ∧
    (runCalls (⟨0, 7⟩ : HostConstants)
        (DllMain Globals.initial 0x1000 DLL_PROCESS_ATTACH 0).globals
        (([HostCall.dllMain ⟨0x1000, DLL_PROCESS_DETACH, 0⟩,
              HostCall.getModuleInfo ⟨1, 2, 3⟩ none,
              HostCall.dllMain ⟨0x2000, DLL_THREAD_ATTACH, 0⟩,
              HostCall.dllMain ⟨0x1000, DLL_PROCESS_ATTACH, 0⟩] : List (HostCall Unit)).take 4)).hInst
      = 0x1000 :=
  ⟨by decide,
    hInst_stable_after_attach ⟨0, 7⟩ Globals.initial 0x1000 0 _ (by decide) 4⟩

/-- C9: last attach wins.  For every initial value of `hInst` and every finite
sequence of `DllMain` calls, either no call of the sequence has reason
`DLL_PROCESS_ATTACH` and `hInst` ends with its initial value, or the sequence
splits around a last call with reason `DLL_PROCESS_ATTACH` (no call after it has
that reason) and `hInst` ends equal to the handle of that call; and every call
of the sequence returns `TRUE`. -/
theorem DllMain_last_attach_wins (g : Globals) (calls : List DllMainArgs) :
    (((∀ a ∈ calls, a.reason ≠ DLL_PROCESS_ATTACH) ∧ (runDllMain g calls).hInst = g.hInst) ∨
      (∃ pre a post, calls = pre ++ a :: post ∧ a.reason = DLL_PROCESS_ATTACH ∧
        (∀ b ∈ post, b.reason ≠ DLL_PROCESS_ATTACH) ∧
        (runDllMain g calls).hInst = a.hModule)) ∧
    retsDllMain g calls = List.replicate calls.length TRUE := by
  refine ⟨?_, retsDllMain_all_TRUE calls g⟩
  induction calls using List.reverseRecOn with
  | nil => exact Or.inl ⟨by simp, rfl⟩
  | append_singleton l c ih =>
    rw [runDllMain_snoc]
    by_cases hr : c.reason = DLL_PROCESS_ATTACH
    · right
      refine ⟨l, c, [], rfl, hr, by simp, ?_⟩
      rw [hr, DllMain_globals_attach]
    · rw [DllMain_globals_other _ _ _ _ hr]
      rcases ih with ⟨hall, hkeep⟩ | ⟨pre, a, post, hsplit, ha, hpost, hlast⟩
      · left
        refine ⟨?_, hkeep⟩
        intro b hb
        rcases List.mem_append.mp hb with hb | hb
        · exact hall b hb
        · rw [List.mem_singleton.mp hb]; exact hr
      · right
        refine ⟨pre, a, post ++ [c], by simp [hsplit], ha, ?_, hlast⟩
        intro b hb
        rcases List.mem_append.mp hb with hb | hb
        · exact hpost b hb
        · rw [List.mem_singleton.mp hb]; exact hr

end Intro
